import Mathlib

/-!
Shallow embedding of `src/app.py` (Carbon Credits Retirement Analysis dashboard).

The script is a linear pandas pipeline:
  lines 12-22  load the CSV, drop rows whose raw date cell is missing (line 15,
               BEFORE parsing), parse dates with `errors='coerce'` (line 18),
               derive `Retirement Year` (line 19), coerce `Quantity Issued`
               to numeric with `errors='coerce'` (lines 21-22);
  lines 35-42  derive the `Date Period` column at the selected granularity;
  lines 84-96  apply the year-range filter and the three categorical filters;
  lines 99-161 build the pivot table, the summary metrics, and the top-5 chart.

Modelling decisions (pandas semantics made explicit):
* A raw date cell is `missing` (NaN in the CSV), `unparseable` (a present
  string `to_datetime` cannot parse), or `valid y m`.  `dropna` on line 15 runs
  before `to_datetime`, so it removes only `missing` cells; `unparseable`
  cells survive and become NaT (`none`) after coercion.
* `dt.year` on a datetime column containing a NaT has float dtype, so
  `astype(int)` (lines 36 and 38) raises `IntCastingNaNError`.  The `Date
  Period` derivation is therefore a fallible step, modelled with `Except`.
  In the Month branch (lines 41-42) there is no `astype(int)`; but when the
  column contains a NaT the year/month become floats and `astype(str)` yields
  `"2021.0"` / `"5.0"` / `"nan"` style strings, which we reproduce.
* Quantities are modelled as integers (`Int`): the claims under scrutiny only
  concern exact sums of integer-valued inputs, and `aggfunc='sum'` is exact
  on them.  `to_numeric(errors='coerce')` sends non-numeric cells to NaN,
  modelled as `none`; pandas group sums skip NaN (an all-NaN group sums to 0
  with the default `min_count=0`), so summing `Option.getD 0` is exact.
* `pivot_table` groups by `(Retirement Beneficiary, Date Period)` and drops
  records whose index key is NaN (default `dropna=True` of the underlying
  groupby); row and column labels come out sorted ascending.  Python/pandas
  sort strings lexicographically by code point, modelled by `strLe`.
* `sort_values(by, ascending=False)` (line 110) is implemented in pandas
  (`pandas.core.sorting.nargsort`) by reversing the values, computing an
  ascending argsort, and reversing the resulting indexer.  We model this as
  `reverse`, then a stable ascending insertion sort, then `reverse`.  This
  determines the descending key order exactly, but the order of rows with
  EQUAL keys is an idealization: numpy's default introsort is stable only
  within its 16-element insertion-sort threshold and unstable beyond, so
  the program fixes no tie order in general.  Every theorem below therefore
  depends on the sorted row list only up to permutation, or is stated
  relative to whatever order `.rows` has; no theorem asserts tie order.
* Display-time number formatting (the `:,.0f` on line 117) is out of scope;
  metrics carry their numeric value.
* The Streamlit calls of lines 113-161 are modelled as a list of render
  actions.  `RenderAction.info` models `st.info`, the user-visible
  informational message facility; the script never emits it.
-/

namespace Offtakers

instance {ε α : Type _} [DecidableEq ε] [DecidableEq α] : DecidableEq (Except ε α) := fun x y =>
  match x, y with
  | .error a, .error b =>
      if h : a = b then .isTrue (by rw [h]) else .isFalse (fun hc => h (Except.error.injEq a b ▸ hc))
  | .error a, .ok b => .isFalse (fun hc => Except.noConfusion hc)
  | .ok a, .error b => .isFalse (fun hc => Except.noConfusion hc)
  | .ok a, .ok b =>
      if h : a = b then .isTrue (by rw [h]) else .isFalse (fun hc => h (Except.ok.injEq a b ▸ hc))

/-- Raw cell of the `Retirement/Cancellation Date` column: absent (NaN),
present but not parseable as a date, or a parseable date (year, month). -/
inductive DateCell where
  | missing
  | unparseable
  | valid (year : Int) (month : Nat)
deriving DecidableEq, Repr

/-- Raw cell of the `Quantity Issued` column. -/
inductive QuantityCell where
  | numeric (n : Int)
  | nonNumeric
  | missing
deriving DecidableEq, Repr

/-- One row of `vcus.csv`, restricted to the columns the pipeline reads. -/
structure RawRecord where
  beneficiary : Option String
  date : DateCell
  quantity : QuantityCell
  projectType : Option String
  methodology : Option String
  country : Option String
deriving DecidableEq, Repr

/-- One row of the normalized DataFrame after lines 15-22. -/
structure Record where
  beneficiary : Option String
  pdate : Option (Int × Nat)
  retirementYear : Option Int
  quantity : Option Int
  projectType : Option String
  methodology : Option String
  country : Option String
deriving DecidableEq, Repr

/-- `pd.to_datetime(..., errors='coerce')` (line 18): missing and unparseable
cells both become NaT. -/
def toDatetime : DateCell → Option (Int × Nat)
  | .missing => none
  | .unparseable => none
  | .valid y m => some (y, m)

/-- `pd.to_numeric(..., errors='coerce')` (line 22): non-numeric cells become
NaN.  (Line 21 skips the coercion when the column is already numeric, which
yields the same values.) -/
def toNumeric : QuantityCell → Option Int
  | .numeric n => some n
  | .nonNumeric => none
  | .missing => none

/-- Normalization of one surviving row (lines 18-22): parsed date,
`Retirement Year` (line 19: `dt.year`, NaN for NaT), coerced quantity. -/
def normalize (r : RawRecord) : Record :=
  { beneficiary := r.beneficiary
    pdate := toDatetime r.date
    retirementYear := (toDatetime r.date).map Prod.fst
    quantity := toNumeric r.quantity
    projectType := r.projectType
    methodology := r.methodology
    country := r.country }

/-- Lines 12-22.  The `dropna` on line 15 runs on the raw column, before
`to_datetime`, so it only removes rows whose date cell is absent; rows with a
present-but-unparseable date survive and get `pdate = none` (NaT). -/
def loadDf (raw : List RawRecord) : List Record :=
  (raw.filter (fun r => r.date != DateCell.missing)).map normalize

/-- The sidebar radio of line 28. -/
inductive Granularity where
  | year
  | quarter
  | month
deriving DecidableEq, Repr

/-- `dt.quarter`: quarter of a month (1-12 → 1-4). -/
def quarterOf (m : Nat) : Nat := (m - 1) / 3 + 1

/-- Python `str.zfill(2)` (line 42): left-pad with zeros to width 2. -/
def zfill2 (s : String) : String :=
  if s.length < 2 then String.mk (List.replicate (2 - s.length) '0') ++ s else s

/-- A normalized record together with its `Date Period` column value. -/
structure PRecord where
  record : Record
  period : String
deriving DecidableEq, Repr

/-- Pair a record with its derived `Date Period` string. -/
def pairWith (f : Record → String) (r : Record) : PRecord := ⟨r, f r⟩

/-- Year-granularity period string (line 36); the `none` case is unreachable
because the `astype(int)` guard has already rejected columns with a NaT. -/
def yearStr (r : Record) : String :=
  match r.pdate with
  | some (y, _) => toString y
  | none => "nan"

/-- Quarter-granularity period string (lines 38-39); `none` unreachable as in
`yearStr`. -/
def quarterStr (r : Record) : String :=
  match r.pdate with
  | some (y, m) => toString y ++ " Q" ++ toString (quarterOf m)
  | none => "nan"

/-- Month-granularity period string (lines 41-42).  `allParsed` records
whether the whole datetime column is free of NaT: if not, `dt.year` and
`dt.month` have float dtype and `astype(str)` produces `"2021.0"`-style
strings (and `"nan"` for the NaT rows themselves). -/
def monthStr (allParsed : Bool) (r : Record) : String :=
  match r.pdate with
  | some (y, m) =>
      if allParsed then toString y ++ "-" ++ zfill2 (toString m)
      else toString y ++ ".0" ++ "-" ++ zfill2 (toString m ++ ".0")
  | none => "nan" ++ "-" ++ zfill2 "nan"

/-- The exception raised by `astype(int)` on a float column containing NaN. -/
def intCastErr : String :=
  "IntCastingNaNError: Cannot convert non-finite values (NA or inf) to integer"

/-- Lines 35-42: derive the `Date Period` column for the whole DataFrame.
For Year and Quarter granularity, `astype(int)` raises as soon as any row of
the (already date-dropna'd) DataFrame has an unparseable date. -/
def addPeriods (g : Granularity) (rs : List Record) : Except String (List PRecord) :=
  match g with
  | .year =>
      if rs.all (fun r => r.pdate.isSome) then .ok (rs.map (pairWith yearStr))
      else .error intCastErr
  | .quarter =>
      if rs.all (fun r => r.pdate.isSome) then .ok (rs.map (pairWith quarterStr))
      else .error intCastErr
  | .month =>
      .ok (rs.map (pairWith (monthStr (rs.all (fun r => r.pdate.isSome)))))

/-- Line 85-86: `Retirement Year >= lo` and `<= hi`; both comparisons are
false on NaN, so records without a comparable year are excluded. -/
def yearInRange (lo hi : Int) (r : Record) : Bool :=
  match r.retirementYear with
  | some y => decide (lo ≤ y) && decide (y ≤ hi)
  | none => false

/-- `Series.isin(sel)` on an optional string cell: NaN is never a member. -/
def isinOpt (sel : List String) : Option String → Bool
  | some v => sel.contains v
  | none => false

/-- One `if len(selected) > 0: filtered = filtered[....isin(selected)]` block
(lines 89-96). -/
def catFilter (sel : List String) (get : Record → Option String) (rs : List PRecord) :
    List PRecord :=
  if sel.length > 0 then rs.filter (fun p => isinOpt sel (get p.record)) else rs

/-- Lines 84-96: the year-range filter followed by the three categorical
filters, in source order (project type, methodology, country). -/
def applyFilters (lo hi : Int) (sPT sM sC : List String) (rs : List PRecord) :
    List PRecord :=
  catFilter sC (fun r => r.country)
    (catFilter sM (fun r => r.methodology)
      (catFilter sPT (fun r => r.projectType)
        (rs.filter (fun p => yearInRange lo hi p.record))))

/-- Boolean lexicographic-by-code-point comparison on character lists,
matching Python's string ordering. -/
def charsLe : List Char → List Char → Bool
  | [], _ => true
  | _ :: _, [] => false
  | a :: as, b :: bs => if a < b then true else if b < a then false else charsLe as bs

/-- Python/pandas string comparison. -/
def strLe (a b : String) : Bool := charsLe a.data b.data

/-- Python `sorted` on distinct strings / the ascending label sort performed
by `pivot_table` on its index and columns (a stable insertion sort; on the
distinct labels being sorted, any sort agreeing with `strLe` coincides). -/
def sortedStrings (l : List String) : List String :=
  List.insertionSort (fun a b => strLe a b = true) l

/-- Line 57 / 66 / 75: `sorted(df[col].dropna().unique().tolist())`. -/
def fieldOptions (get : Record → Option String) (rs : List Record) : List String :=
  sortedStrings (rs.filterMap get).dedup

/-- A quantity cell as it enters a group sum: NaN contributes zero. -/
def qty0 (r : Record) : Int := r.quantity.getD 0

/-- Sum of quantities over a list of records (NaN as zero). -/
def sumQty (l : List PRecord) : Int := (l.map (fun p => qty0 p.record)).sum

/-- One row of the pivot table after line 109: its index label, its cells in
period-column order, and the appended `Grand Total`. -/
structure PivotRow where
  beneficiary : String
  cells : List Int
  grandTotal : Int
deriving DecidableEq, Repr

/-- The pivot table: its period columns (ascending label order) and its rows
(after the line 110 sort).  The DataFrame's full column list is
`periods ++ ["Grand Total"]`. -/
structure Pivot where
  periods : List String
  rows : List PivotRow
deriving DecidableEq, Repr

/-- `pivot_table` drops records whose index key (`Retirement Beneficiary`)
is NaN (groupby `dropna=True`). -/
def pvRecords (l : List PRecord) : List PRecord :=
  l.filter (fun p => p.record.beneficiary.isSome)

/-- The pivot's index: the distinct beneficiaries present, sorted ascending. -/
def benKeys (l : List PRecord) : List String :=
  sortedStrings (l.filterMap (fun p => p.record.beneficiary)).dedup

/-- The pivot's columns before `Grand Total`: the distinct `Date Period`
values present, sorted ascending. -/
def periodKeys (l : List PRecord) : List String :=
  sortedStrings ((l.map (fun p => p.period)).dedup)

/-- One pivot cell: `aggfunc='sum'` over the `(beneficiary, period)` group,
`fill_value=0` for empty groups (an all-NaN group also sums to 0). -/
def cellSum (l : List PRecord) (b p : String) : Int :=
  sumQty ((l.filter (fun x => x.record.beneficiary == some b)).filter (fun x => x.period == p))

/-- One row of the pivot: cells in period order, `Grand Total` as the
row-wise sum over the period columns (line 109: `pivot_table.sum(axis=1)`,
computed before the new column is appended). -/
def mkRow (l : List PRecord) (ps : List String) (b : String) : PivotRow :=
  { beneficiary := b
    cells := ps.map (cellSum l b)
    grandTotal := (ps.map (cellSum l b)).sum }

/-- The pivot rows in the order `pivot_table` produces them (index ascending),
before the line 110 sort. -/
def unsortedRows (l : List PRecord) : List PivotRow :=
  (benKeys l).map (mkRow l (periodKeys l))

/-- Comparison used by the line 110 sort. -/
def rowLe (a b : PivotRow) : Prop := a.grandTotal ≤ b.grandTotal

instance : DecidableRel rowLe := fun a b => Int.decLe a.grandTotal b.grandTotal

instance : IsTotal PivotRow rowLe := ⟨fun a b => Int.le_total a.grandTotal b.grandTotal⟩

instance : IsTrans PivotRow rowLe := ⟨fun _ _ _ h₁ h₂ => Int.le_trans h₁ h₂⟩

/-- `sort_values('Grand Total', ascending=False)` (line 110): pandas reverses
the values, argsorts ascending, and reverses the indexer
(`pandas.core.sorting.nargsort`).  The ascending argsort uses numpy's
default introsort (`kind='quicksort'`), which is stable only within its
16-element insertion-sort threshold and unstable beyond, so the program
determines the descending key order but not, in general, the relative order
of rows with equal Grand Totals.  We use a stable insertion sort as one
executable representative of this family; downstream theorems use the
result only up to permutation of the row list (membership, sums, lengths,
lookup by the duplicate-free beneficiary labels) or speak of `.rows`
self-referentially, so none relies on the idealized tie order. -/
def sortRowsDesc (rows : List PivotRow) : List PivotRow :=
  (List.insertionSort rowLe rows.reverse).reverse

/-- Lines 100-110 applied to the already beneficiary-filtered records. -/
def pivotCore (l : List PRecord) : Pivot :=
  { periods := periodKeys l
    rows := sortRowsDesc (unsortedRows l) }

/-- Lines 100-110: the pivot table built from the filtered records. -/
def buildPivot (l : List PRecord) : Pivot :=
  pivotCore (pvRecords l)

/-- The DataFrame's column labels after line 109. -/
def pivotColumns (pv : Pivot) : List String := pv.periods ++ ["Grand Total"]

/-- `pivot_table['Grand Total'].sum()` (line 117). -/
def sumGrandTotals (pv : Pivot) : Int := (pv.rows.map (fun r => r.grandTotal)).sum

/-- `[c for c in pivot_table.columns if c != 'Grand Total']`
(lines 119 and 131). -/
def periodColumnsOf (pv : Pivot) : List String :=
  (pivotColumns pv).filter (fun c => c != "Grand Total")

/-- `pivot_table.head(5)` (line 130). -/
def topFive (pv : Pivot) : List PivotRow := pv.rows.take 5

/-- Column lookup by label, as `top_5.loc[beneficiary, period_columns]` does:
the label `"Grand Total"` selects the appended column, any other label is
looked up among the period columns. -/
def lookupCol (pv : Pivot) (row : PivotRow) (c : String) : Int :=
  if c == "Grand Total" then row.grandTotal
  else
    match pv.periods.indexOf? c with
    | some i => row.cells.getD i 0
    | none => 0

/-- Lines 136-144: one plotly trace per top-5 beneficiary, with the y-values
taken at `period_columns` in order. -/
def chartTraces (pv : Pivot) : List (String × List Int) :=
  (topFive pv).map (fun row => (row.beneficiary, (periodColumnsOf pv).map (lookupCol pv row)))

/-- The user-visible outputs the script can emit for the filtered section
(lines 113-161).  `info` models `st.info`, the informational-message widget;
the script never calls it. -/
inductive RenderAction where
  | metric (label : String) (value : Int)
  | subheader (text : String)
  | dataframe (pv : Pivot)
  | chart (traces : List (String × List Int))
  | info (text : String)
deriving DecidableEq, Repr

/-- `str(date_granularity)`. -/
def granStr : Granularity → String
  | .year => "Year"
  | .quarter => "Quarter"
  | .month => "Month"

/-- Line 120: `f"{date_granularity}s" if date_granularity != 'Month' else "Months"`. -/
def periodLabel (g : Granularity) : String :=
  if g != Granularity.month then granStr g ++ "s" else "Months"

/-- Lines 99-161: everything rendered for the filtered section.  When the
filtered set is empty the whole `if` body is skipped and nothing at all is
emitted (there is no `else` branch in the source). -/
def render (g : Granularity) (filtered : List PRecord) : List RenderAction :=
  if filtered.length > 0 then
    let pv := buildPivot filtered
    [ RenderAction.metric "Total Beneficiaries" (pv.rows.length : Int),
      RenderAction.metric "Total Credits Issued" (sumGrandTotals pv),
      RenderAction.metric (periodLabel g ++ " Covered") ((periodColumnsOf pv).length : Int),
      RenderAction.subheader ("Retirement Beneficiaries Pivot Table (by " ++ granStr g ++ ")"),
      RenderAction.dataframe pv,
      RenderAction.subheader
        ("Top 5 Retirement Beneficiaries - Trend Analysis (by " ++ granStr g ++ ")"),
      RenderAction.chart (chartTraces pv) ]
  else []

/-- Load, derive periods, filter: the record set reaching line 99. -/
def filteredResult (g : Granularity) (lo hi : Int) (sPT sM sC : List String)
    (raw : List RawRecord) : Except String (List PRecord) :=
  (addPeriods g (loadDf raw)).map (applyFilters lo hi sPT sM sC)

/-- The pivot table of lines 100-110, when the pipeline reaches it. -/
def pivotResult (g : Granularity) (lo hi : Int) (sPT sM sC : List String)
    (raw : List RawRecord) : Except String Pivot :=
  (filteredResult g lo hi sPT sM sC raw).map buildPivot

/-- The whole script run: either the `astype(int)` exception or the list of
rendered outputs. -/
def runApp (g : Granularity) (lo hi : Int) (sPT sM sC : List String)
    (raw : List RawRecord) : Except String (List RenderAction) :=
  (filteredResult g lo hi sPT sM sC raw).map (render g)

/-- `Grand Total` looked up per beneficiary in the final pivot (matching a
row by its index label), `none` when the beneficiary has no row. -/
def rowTotal (pv : Pivot) (b : String) : Option Int :=
  (pv.rows.find? (fun r => r.beneficiary == b)).map (fun r => r.grandTotal)

/-- Is a render action an informational message (`st.info`)? -/
def isInfoAction : RenderAction → Bool
  | .info _ => true
  | _ => false

/-- The filter pipeline of lines 84-96 expressed on the bare records (the
`Date Period` column plays no role in any filter predicate); used to state
that filtering commutes with period derivation. -/
def recordFilters (lo hi : Int) (sPT sM sC : List String) (rs : List Record) : List Record :=
  let f0 := rs.filter (yearInRange lo hi)
  let f1 := if sPT.length > 0 then f0.filter (fun r => isinOpt sPT r.projectType) else f0
  let f2 := if sM.length > 0 then f1.filter (fun r => isinOpt sM r.methodology) else f1
  if sC.length > 0 then f2.filter (fun r => isinOpt sC r.country) else f2

/-! ### Concrete inputs used by counterexamples and witnesses -/

/-- A fully well-formed record: Acme, May 2021, quantity 10. -/
def rawAcme : RawRecord :=
  ⟨some "Acme", DateCell.valid 2021 5, QuantityCell.numeric 10,
    some "Forestry", some "M1", some "US"⟩

/-- A second well-formed record: Bogus, November 2021, quantity 20. -/
def rawBogus : RawRecord :=
  ⟨some "Bogus", DateCell.valid 2021 11, QuantityCell.numeric 20,
    some "Renewable", some "M2", some "DE"⟩

/-- A record whose date cell is present but unparseable. -/
def rawBadDate : RawRecord :=
  ⟨some "Ugly", DateCell.unparseable, QuantityCell.numeric 5,
    some "Forestry", some "M1", some "US"⟩

/-- A record dated outside every year range used below (year 2010). -/
def rawOld : RawRecord :=
  ⟨some "Old", DateCell.valid 2010 3, QuantityCell.numeric 7,
    some "Forestry", some "M1", some "US"⟩

/-- A record with a missing beneficiary and quantity 10. -/
def rawNoBen : RawRecord :=
  ⟨none, DateCell.valid 2021 5, QuantityCell.numeric 10,
    some "Forestry", some "M1", some "US"⟩

/-- A record with a missing project type. -/
def rawNoPT : RawRecord :=
  ⟨some "Acme", DateCell.valid 2021 5, QuantityCell.numeric 3,
    none, some "M1", some "US"⟩

/-- Dataset for the C3 counterexample: one record with project type "Forestry"
and one with a missing project type. -/
def c3raw : List RawRecord := [rawAcme, rawNoPT]

/-- A one-record filtered set with a present beneficiary (what
`filteredResult .year 2020 2024 [] [] [] [rawAcme]` produces). -/
def wAcme : List PRecord :=
  [⟨⟨some "Acme", some (2021, 5), some 2021, some 10,
      some "Forestry", some "M1", some "US"⟩, "2021"⟩]

/-- A one-record filtered set whose only record has a missing beneficiary
(what `filteredResult .year 2020 2024 [] [] [] [rawNoBen]` produces). -/
def wNoBen : List PRecord :=
  [⟨⟨none, some (2021, 5), some 2021, some 10,
      some "Forestry", some "M1", some "US"⟩, "2021"⟩]

/-- A two-record filtered set with two beneficiaries whose totals tie. -/
def wTie : List PRecord :=
  [⟨⟨some "Acme", some (2021, 5), some 2021, some 10,
      some "Forestry", some "M1", some "US"⟩, "2021"⟩,
   ⟨⟨some "Bogus", some (2022, 7), some 2022, some 10,
      some "Renewable", some "M2", some "DE"⟩, "2022"⟩]

/-!
## Supporting lemmas
-/

/-- Splitting a sum over a list along a Boolean predicate. -/
theorem sum_split_filter (p : α → Bool) (f : α → Int) (l : List α) :
    ((l.filter p).map f).sum + ((l.filter (fun x => !p x)).map f).sum = (l.map f).sum := by
  induction l with
  | nil => simp
  | cons x t ih =>
    by_cases h : p x = true <;>
      simp only [List.filter_cons, h, Bool.not_true, Bool.not_false, if_pos, if_neg,
        Bool.false_eq_true, not_false_eq_true, List.map_cons, List.sum_cons, ite_true,
        ite_false] <;> omega

/-- Summing group sums over a duplicate-free list of keys covering every
element recovers the total sum. -/
theorem sum_fiber {κ α : Type _} [BEq κ] [LawfulBEq κ] (key : α → κ) (f : α → Int) :
    ∀ (ks : List κ) (l : List α), ks.Nodup → (∀ x ∈ l, key x ∈ ks) →
      (ks.map (fun k => ((l.filter (fun x => key x == k)).map f).sum)).sum = (l.map f).sum := by
  intro ks
  induction ks with
  | nil =>
    intro l _ hmem
    have hl : l = [] := by
      cases l with
      | nil => rfl
      | cons x t => exact absurd (hmem x (List.mem_cons_self x t)) (List.not_mem_nil _)
    rw [hl]; simp
  | cons k ks ih =>
    intro l hnd hmem
    have hk : k ∉ ks := (List.nodup_cons.mp hnd).1
    have hstep : ∀ k2 ∈ ks,
        (l.filter (fun x => !(key x == k))).filter (fun x => key x == k2)
          = l.filter (fun x => key x == k2) := by
      intro k2 hk2
      rw [List.filter_filter]
      apply List.filter_congr
      intro x _
      cases hx : key x == k2 with
      | false => simp [hx]
      | true =>
        have : key x ≠ k := by
          intro hcontra
          exact hk (hcontra ▸ (beq_iff_eq.mp hx) ▸ hk2)
        simp [hx, this]
    have hrest :
        (ks.map (fun k2 => ((l.filter (fun x => key x == k2)).map f).sum)).sum
          = (((l.filter (fun x => !(key x == k))).map f)).sum := by
      rw [← ih (l.filter (fun x => !(key x == k))) (List.nodup_cons.mp hnd).2 ?side]
      · apply congrArg
        apply List.map_congr_left
        intro k2 hk2
        rw [hstep k2 hk2]
      case side =>
        intro x hx
        have hx2 := List.mem_filter.mp hx
        rcases List.mem_cons.mp (hmem x hx2.1) with h | h
        · have hb := hx2.2
          rw [h] at hb
          simp at hb
        · exact h
    simp only [List.map_cons, List.sum_cons, hrest]
    exact sum_split_filter (fun x => key x == k) f l

/-- Membership in `sortedStrings`. -/
theorem mem_sortedStrings {a : String} {l : List String} :
    a ∈ sortedStrings l ↔ a ∈ l := by
  unfold sortedStrings
  exact List.mem_insertionSort _

/-- `sortedStrings` of a deduplicated list is duplicate-free. -/
theorem nodup_sortedStrings_dedup (l : List String) : (sortedStrings l.dedup).Nodup :=
  ((List.perm_insertionSort _ _).nodup_iff).mpr (List.nodup_dedup l)

/-- The pivot's period columns are duplicate-free. -/
theorem nodup_periodKeys (l : List PRecord) : (periodKeys l).Nodup :=
  nodup_sortedStrings_dedup _

/-- The pivot's index labels are duplicate-free. -/
theorem nodup_benKeys (l : List PRecord) : (benKeys l).Nodup :=
  nodup_sortedStrings_dedup _

/-- A row's `Grand Total` (the row-wise sum over the period columns) equals
the plain quantity sum over that beneficiary's records: the period columns
partition them. -/
theorem grandTotal_mkRow (l : List PRecord) (b : String) :
    (mkRow l (periodKeys l) b).grandTotal
      = sumQty (l.filter (fun x => x.record.beneficiary == some b)) := by
  show ((periodKeys l).map (cellSum l b)).sum = _
  have := sum_fiber (fun x : PRecord => x.period) (fun x => qty0 x.record) (periodKeys l)
    (l.filter (fun x => x.record.beneficiary == some b)) (nodup_periodKeys l) ?cover
  · exact this
  case cover =>
    intro x hx
    exact mem_sortedStrings.mpr (List.mem_dedup.mpr
      (List.mem_map_of_mem (fun p => p.period) (List.mem_of_mem_filter hx)))

/-- The line 110 sort permutes the rows. -/
theorem sortRowsDesc_perm (rows : List PivotRow) : List.Perm (sortRowsDesc rows) rows := by
  unfold sortRowsDesc
  exact ((List.reverse_perm _).trans (List.perm_insertionSort _ _)).trans
    (List.reverse_perm rows)

/-- Every final pivot row comes from `unsortedRows`. -/
theorem mem_rows_pivotCore {l : List PRecord} {row : PivotRow}
    (h : row ∈ (pivotCore l).rows) : ∃ b ∈ benKeys l, row = mkRow l (periodKeys l) b := by
  have h2 : row ∈ unsortedRows l := ((sortRowsDesc_perm _).mem_iff).mp h
  rcases List.mem_map.mp h2 with ⟨b, hb, hrow⟩
  exact ⟨b, hb, hrow.symm⟩

/-- Summing the pre-sort rows' grand totals gives the quantity sum, provided
every record has a beneficiary (the `pivot_table` input after NaN keys are
dropped). -/
theorem sum_unsortedRows (l : List PRecord) (h : ∀ x ∈ l, x.record.beneficiary.isSome) :
    ((unsortedRows l).map (fun r => r.grandTotal)).sum = sumQty l := by
  unfold unsortedRows
  rw [List.map_map]
  have hcongr : (benKeys l).map ((fun r => r.grandTotal) ∘ mkRow l (periodKeys l))
      = (benKeys l).map (fun b => sumQty (l.filter (fun x => x.record.beneficiary == some b))) :=
    List.map_congr_left (fun b _ => grandTotal_mkRow l b)
  rw [hcongr]
  have hfib := sum_fiber (fun x : PRecord => x.record.beneficiary) (fun x => qty0 x.record)
    ((benKeys l).map some) l ?nd ?cover
  · rw [List.map_map] at hfib
    exact hfib
  case nd => exact (nodup_benKeys l).map (Option.some_injective String)
  case cover =>
    intro x hx
    show x.record.beneficiary ∈ List.map some (benKeys l)
    rcases Option.isSome_iff_exists.mp (h x hx) with ⟨v, hv⟩
    rw [hv]
    refine List.mem_map_of_mem some (mem_sortedStrings.mpr (List.mem_dedup.mpr ?_))
    exact List.mem_filterMap.mpr ⟨x, hx, hv⟩

/-- Conservation at pivot level: the sum of all `Grand Total` values equals
the quantity sum over the pivot's input records. -/
theorem sumGrandTotals_pivotCore (l : List PRecord)
    (h : ∀ x ∈ l, x.record.beneficiary.isSome) :
    sumGrandTotals (pivotCore l) = sumQty l := by
  show ((sortRowsDesc (unsortedRows l)).map (fun r => r.grandTotal)).sum = sumQty l
  rw [((sortRowsDesc_perm (unsortedRows l)).map (fun r => r.grandTotal)).sum_eq]
  exact sum_unsortedRows l h

/-- `pivot_table` drops exactly the records with a missing beneficiary. -/
theorem pvRecords_filter (l : List PRecord) :
    pvRecords (l.filter (fun p => p.record.beneficiary.isSome)) = pvRecords l := by
  unfold pvRecords
  rw [List.filter_filter]
  simp

/-- Membership in a categorical filter's output implies membership in its
input. -/
theorem mem_of_mem_catFilter {sel : List String} {get : Record → Option String}
    {l : List PRecord} {p : PRecord} (h : p ∈ catFilter sel get l) : p ∈ l := by
  unfold catFilter at h
  split at h
  · exact List.mem_of_mem_filter h
  · exact h

/-- Members of the filter pipeline's output come from its input. -/
theorem mem_of_mem_applyFilters {lo hi : Int} {sPT sM sC : List String}
    {rs : List PRecord} {p : PRecord} (h : p ∈ applyFilters lo hi sPT sM sC rs) : p ∈ rs :=
  List.mem_of_mem_filter (mem_of_mem_catFilter (mem_of_mem_catFilter (mem_of_mem_catFilter h)))

/-- A record paired with its period string comes from the underlying list. -/
theorem mem_record_of_mem_map_pairWith {f : Record → String} {rs : List Record} {p : PRecord}
    (h : p ∈ rs.map (pairWith f)) : p.record ∈ rs := by
  rcases List.mem_map.mp h with ⟨r, hr, hpr⟩
  rw [← hpr]
  exact hr

/-- Whatever list `addPeriods` returns, its records come from the input. -/
theorem addPeriods_record_mem {g : Granularity} {rs : List Record} {prs : List PRecord}
    (h : addPeriods g rs = Except.ok prs) : ∀ p ∈ prs, p.record ∈ rs := by
  intro p hp
  cases g with
  | year =>
    simp only [addPeriods] at h
    by_cases hc : (rs.all fun r => r.pdate.isSome) = true
    · rw [if_pos hc] at h
      injection h with h2
      rw [← h2] at hp
      exact mem_record_of_mem_map_pairWith hp
    · rw [if_neg hc] at h
      exact Except.noConfusion h
  | quarter =>
    simp only [addPeriods] at h
    by_cases hc : (rs.all fun r => r.pdate.isSome) = true
    · rw [if_pos hc] at h
      injection h with h2
      rw [← h2] at hp
      exact mem_record_of_mem_map_pairWith hp
    · rw [if_neg hc] at h
      exact Except.noConfusion h
  | month =>
    simp only [addPeriods] at h
    injection h with h2
    rw [← h2] at hp
    exact mem_record_of_mem_map_pairWith hp

/-- Once every relevant record carries a present value for a field, selecting
the full option list of that field filters nothing, exactly like the empty
selection. -/
theorem catFilter_allValues (ds : List Record) (get : Record → Option String)
    (l : List PRecord) (hsub : ∀ p ∈ l, p.record ∈ ds)
    (hfield : ∀ r ∈ ds, (get r).isSome) :
    catFilter (fieldOptions get ds) get l = catFilter [] get l := by
  by_cases hlen : (fieldOptions get ds).length > 0
  · unfold catFilter
    rw [if_pos hlen, if_neg (by simp)]
    apply List.filter_eq_self.mpr
    intro p hp
    rcases Option.isSome_iff_exists.mp (hfield p.record (hsub p hp)) with ⟨v, hv⟩
    show isinOpt (fieldOptions get ds) (get p.record) = true
    rw [hv]
    show (fieldOptions get ds).contains v = true
    refine List.contains_iff_exists_mem_beq.mpr ⟨v, ?_, by simp⟩
    exact mem_sortedStrings.mpr (List.mem_dedup.mpr (List.mem_filterMap.mpr ⟨p.record, hsub p hp, hv⟩))
  · have h0 : fieldOptions get ds = [] := by
      cases hopt : fieldOptions get ds with
      | nil => rfl
      | cons x t => rw [hopt] at hlen; simp at hlen
    rw [h0]

/-- A categorical filter commutes with pairing records with their period. -/
theorem catFilter_map_pairWith (sel : List String) (get : Record → Option String)
    (f : Record → String) (rs : List Record) :
    catFilter sel get (rs.map (pairWith f))
      = (if sel.length > 0 then rs.filter (fun r => isinOpt sel (get r)) else rs).map
          (pairWith f) := by
  unfold catFilter
  by_cases h : sel.length > 0
  · rw [if_pos h, if_pos h, List.filter_map]
    rfl
  · rw [if_neg h, if_neg h]

/-- The whole filter pipeline commutes with period derivation: no filter
predicate reads the `Date Period` column. -/
theorem applyFilters_map_pairWith (lo hi : Int) (sPT sM sC : List String)
    (f : Record → String) (rs : List Record) :
    applyFilters lo hi sPT sM sC (rs.map (pairWith f))
      = (recordFilters lo hi sPT sM sC rs).map (pairWith f) := by
  unfold applyFilters recordFilters
  rw [List.filter_map]
  rw [catFilter_map_pairWith, catFilter_map_pairWith, catFilter_map_pairWith]
  rfl

/-- `rowTotal` on the aggregated pivot: `some` of the beneficiary's quantity
sum when the beneficiary occurs, `none` otherwise. -/
theorem rowTotal_pivotCore (l : List PRecord) (b : String) :
    rowTotal (pivotCore l) b
      = if b ∈ benKeys l
        then some (sumQty (l.filter (fun x => x.record.beneficiary == some b)))
        else none := by
  by_cases hb : b ∈ benKeys l
  · rw [if_pos hb]
    unfold rowTotal
    cases hf : (pivotCore l).rows.find? (fun r => r.beneficiary == b) with
    | none =>
      exfalso
      have hmem : mkRow l (periodKeys l) b ∈ (pivotCore l).rows := by
        show _ ∈ sortRowsDesc (unsortedRows l)
        exact ((sortRowsDesc_perm _).mem_iff).mpr
          (List.mem_map_of_mem (mkRow l (periodKeys l)) hb)
      exact (List.find?_eq_none.mp hf _ hmem) (by simp [mkRow])
    | some r =>
      have hpred := List.find?_some hf
      rcases mem_rows_pivotCore (List.mem_of_find?_eq_some hf) with ⟨b2, hb2, hr⟩
      have hbeq : r.beneficiary = b := by simpa using hpred
      have hb2b : b2 = b := by
        rw [hr] at hbeq
        simpa [mkRow] using hbeq
      show some r.grandTotal = _
      rw [hr, hb2b, grandTotal_mkRow]
  · rw [if_neg hb]
    unfold rowTotal
    have hf : (pivotCore l).rows.find? (fun r => r.beneficiary == b) = none := by
      apply List.find?_eq_none.mpr
      intro r hrmem hpred
      rcases mem_rows_pivotCore hrmem with ⟨b2, hb2, hr⟩
      have hbeq : r.beneficiary = b := by simpa using hpred
      have hb2b : b2 = b := by
        rw [hr] at hbeq
        simpa [mkRow] using hbeq
      exact hb (hb2b ▸ hb2)
    rw [hf]
    rfl

/-- Dropping NaN beneficiaries commutes with period derivation. -/
theorem pvRecords_map_pairWith (f : Record → String) (rs : List Record) :
    pvRecords (rs.map (pairWith f))
      = (rs.filter (fun r => r.beneficiary.isSome)).map (pairWith f) := by
  unfold pvRecords
  rw [List.filter_map]
  rfl

/-- The pivot's index labels do not depend on the period derivation. -/
theorem benKeys_map_pairWith (f : Record → String) (rs : List Record) :
    benKeys (rs.map (pairWith f))
      = sortedStrings (rs.filterMap (fun r => r.beneficiary)).dedup := by
  unfold benKeys
  rw [List.filterMap_map]
  rfl

/-- Per-beneficiary quantity sums do not depend on the period derivation. -/
theorem sumQty_filter_ben_map (f : Record → String) (rs : List Record) (b : String) :
    sumQty ((rs.map (pairWith f)).filter (fun x => x.record.beneficiary == some b))
      = ((rs.filter (fun r => r.beneficiary == some b)).map qty0).sum := by
  unfold sumQty
  rw [List.filter_map, List.map_map]
  rfl

/-- `rowTotal` of the pivot built over period-paired records, in a form that
does not mention the period-derivation function at all. -/
theorem rowTotal_buildPivot_map (f : Record → String) (rs : List Record) (b : String) :
    rowTotal (buildPivot (rs.map (pairWith f))) b
      = if b ∈ sortedStrings ((rs.filter (fun r => r.beneficiary.isSome)).filterMap
            (fun r => r.beneficiary)).dedup
        then some ((((rs.filter (fun r => r.beneficiary.isSome)).filter
            (fun r => r.beneficiary == some b)).map qty0).sum)
        else none := by
  unfold buildPivot
  rw [pvRecords_map_pairWith, rowTotal_pivotCore, benKeys_map_pairWith, sumQty_filter_ben_map]

/-- In a duplicate-free list, the label at position `i` is found at index `i`. -/
theorem indexOf?_getElem_of_nodup :
    ∀ {l : List String}, l.Nodup → ∀ (i : Nat) (hi : i < l.length), l.indexOf? l[i] = some i := by
  intro l
  induction l with
  | nil => intro _ i hi; simp at hi
  | cons x t ih =>
    intro hnd i hi
    cases i with
    | zero => simp [List.indexOf?]
    | succ j =>
      have hj : j < t.length := by simpa using hi
      have hgt : (x :: t)[j + 1] = t[j] := by simp
      have hx : (x == t[j]) = false := by
        rw [beq_eq_false_iff_ne]
        intro hcontra
        exact (List.nodup_cons.mp hnd).1 (hcontra ▸ List.getElem_mem hj)
      show List.findIdx? (fun y => y == (x :: t)[j + 1]) (x :: t) = some (j + 1)
      rw [hgt, List.findIdx?_cons, hx]
      simp only [Bool.false_eq_true, if_false]
      rw [List.findIdx?_succ]
      have := ih (List.Nodup.of_cons hnd) j hj
      show (List.findIdx? (fun y => y == t[j]) t).map (fun i => i + 1) = some (j + 1)
      rw [show List.findIdx? (fun y => y == t[j]) t = some j from this]
      rfl

/-- Reading one final pivot row back through column-label lookup at the
period columns returns exactly its cells. -/
theorem map_lookupCol_eq_cells {l : List PRecord} {row : PivotRow}
    (hrow : row ∈ (pivotCore l).rows) (hGT : "Grand Total" ∉ periodKeys l) :
    (periodKeys l).map (lookupCol (pivotCore l) row) = row.cells := by
  rcases mem_rows_pivotCore hrow with ⟨b, _, hr⟩
  rw [hr]
  show (periodKeys l).map (lookupCol (pivotCore l) (mkRow l (periodKeys l) b))
      = (periodKeys l).map (cellSum l b)
  apply List.ext_getElem
  · simp
  intro i hi1 hi2
  rw [List.getElem_map, List.getElem_map]
  have hplen : i < (periodKeys l).length := by simpa using hi1
  have hne : ((periodKeys l)[i] == "Grand Total") = false := by
    rw [beq_eq_false_iff_ne]
    intro hcontra
    exact hGT (hcontra ▸ List.getElem_mem hplen)
  unfold lookupCol
  rw [hne]
  simp only [Bool.false_eq_true, if_false]
  show (match List.indexOf? ((periodKeys l)[i]) (periodKeys l) with
        | some k => (mkRow l (periodKeys l) b).cells.getD k 0
        | none => 0) = cellSum l b ((periodKeys l)[i])
  rw [indexOf?_getElem_of_nodup (nodup_periodKeys l) i hplen]
  show (mkRow l (periodKeys l) b).cells.getD i 0 = cellSum l b ((periodKeys l)[i])
  have hclen : i < (mkRow l (periodKeys l) b).cells.length := by
    show i < ((periodKeys l).map (cellSum l b)).length
    simpa using hplen
  rw [List.getD_eq_getElem?_getD, List.getElem?_eq_getElem hclen]
  show ((periodKeys l).map (cellSum l b))[i] = cellSum l b ((periodKeys l)[i])
  rw [List.getElem_map]

/-!
## Claim theorems
-/

/-- C1.  The claim (and the comment on line 14 of the source) says a record
with a present-but-unparseable date is recovered locally, excluded from
period-bounded views and never fatal, for every granularity.  In fact the
`dropna` of line 15 runs before `to_datetime`, so such a record survives as
NaT and `astype(int)` (lines 36 and 38) raises `IntCastingNaNError` for the
Year and Quarter granularities; only the Month granularity runs to
completion, where the record is indeed excluded from the filtered views. -/
theorem c1_unparseable_date_is_fatal :
    runApp Granularity.year 2020 2024 [] [] [] [rawAcme, rawBadDate]
        = Except.error intCastErr ∧
    runApp Granularity.quarter 2020 2024 [] [] [] [rawAcme, rawBadDate]
        = Except.error intCastErr ∧
    (pivotResult Granularity.month 2020 2024 [] [] [] [rawAcme, rawBadDate]).map
        (fun pv => pv.rows)
      = Except.ok [⟨"Acme", [10], 10⟩] := by
  refine ⟨by decide, by decide, by decide⟩

/-- C2 (amended).  When the filtered record set is empty, the `if` of
line 99 skips everything: no aggregation runs and no table is rendered —
but, the source having no `else` branch, nothing at all is emitted, in
particular no informational "no data" message. -/
theorem c2_empty_filter_renders_nothing (g : Granularity) (lo hi : Int)
    (sPT sM sC : List String) (raw : List RawRecord)
    (h : filteredResult g lo hi sPT sM sC raw = Except.ok []) :
    runApp g lo hi sPT sM sC raw = Except.ok ([] : List RenderAction) := by
  unfold runApp
  rw [h]
  rfl

/-- C2 witness: a concrete run whose year range excludes the only record. -/
theorem c2_witness :
    filteredResult Granularity.year 2020 2024 [] [] [] [rawOld] = Except.ok [] ∧
    runApp Granularity.year 2020 2024 [] [] [] [rawOld] = Except.ok [] :=
  ⟨by decide, c2_empty_filter_renders_nothing Granularity.year 2020 2024 [] [] [] [rawOld]
    (by decide)⟩

/-- C2 counterexample: with the empty filtered set the run emits no render
action at all, in particular no `st.info`-style informational message, so
the claimed "reports a user-visible informational state" is false. -/
theorem c2_counterexample :
    runApp Granularity.year 2020 2024 [] [] [] [rawOld] = Except.ok [] ∧
    (runApp Granularity.year 2020 2024 [] [] [] [rawOld]).map
        (fun as => as.any isInfoAction)
      = Except.ok false := by
  refine ⟨by decide, by decide⟩

/-- C3 (amended).  An empty selection skips the filter outright, and
replacing it by the all-inclusive option list (line 57/66/75:
`sorted(df[col].dropna().unique())`) leaves the filtered output unchanged
PROVIDED every record has a present value for that field: the option lists
are built with `dropna`, so a record whose field is missing fails
`isin(all options)` while the empty selection keeps it. -/
theorem c3_empty_selection_vs_all (g : Granularity) (lo hi : Int)
    (sPT sM sC : List String) (raw : List RawRecord) :
    (∀ (get : Record → Option String) (rs : List PRecord), catFilter [] get rs = rs) ∧
    ((∀ r ∈ loadDf raw, (r.projectType).isSome) →
        filteredResult g lo hi (fieldOptions (fun r => r.projectType) (loadDf raw)) sM sC raw
          = filteredResult g lo hi [] sM sC raw) ∧
    ((∀ r ∈ loadDf raw, (r.methodology).isSome) →
        filteredResult g lo hi sPT (fieldOptions (fun r => r.methodology) (loadDf raw)) sC raw
          = filteredResult g lo hi sPT [] sC raw) ∧
    ((∀ r ∈ loadDf raw, (r.country).isSome) →
        filteredResult g lo hi sPT sM (fieldOptions (fun r => r.country) (loadDf raw)) raw
          = filteredResult g lo hi sPT sM [] raw) := by
  refine ⟨fun get rs => rfl, ?pt, ?me, ?co⟩
  case pt =>
    intro hfield
    unfold filteredResult
    cases hap : addPeriods g (loadDf raw) with
    | error e => rfl
    | ok prs =>
      simp only [Except.map]
      congr 1
      unfold applyFilters
      rw [catFilter_allValues (loadDf raw) (fun r => r.projectType)
        (prs.filter (fun p => yearInRange lo hi p.record))
        (fun p hp => addPeriods_record_mem hap p (List.mem_of_mem_filter hp)) hfield]
  case me =>
    intro hfield
    unfold filteredResult
    cases hap : addPeriods g (loadDf raw) with
    | error e => rfl
    | ok prs =>
      simp only [Except.map]
      congr 1
      unfold applyFilters
      rw [catFilter_allValues (loadDf raw) (fun r => r.methodology)
        (catFilter sPT (fun r => r.projectType)
          (prs.filter (fun p => yearInRange lo hi p.record)))
        (fun p hp => addPeriods_record_mem hap p
          (List.mem_of_mem_filter (mem_of_mem_catFilter hp))) hfield]
  case co =>
    intro hfield
    unfold filteredResult
    cases hap : addPeriods g (loadDf raw) with
    | error e => rfl
    | ok prs =>
      simp only [Except.map]
      congr 1
      unfold applyFilters
      rw [catFilter_allValues (loadDf raw) (fun r => r.country)
        (catFilter sM (fun r => r.methodology)
          (catFilter sPT (fun r => r.projectType)
            (prs.filter (fun p => yearInRange lo hi p.record))))
        (fun p hp => addPeriods_record_mem hap p
          (List.mem_of_mem_filter (mem_of_mem_catFilter (mem_of_mem_catFilter hp)))) hfield]

/-- C3 witness: on a dataset whose project types are all present, selecting
every option equals selecting nothing. -/
theorem c3_witness :
    ((loadDf [rawAcme, rawBogus]).all (fun r => (r.projectType).isSome)) = true ∧
    filteredResult Granularity.year 2020 2024
        (fieldOptions (fun r => r.projectType) (loadDf [rawAcme, rawBogus])) [] []
        [rawAcme, rawBogus]
      = filteredResult Granularity.year 2020 2024 [] [] [] [rawAcme, rawBogus] :=
  ⟨by decide,
    (c3_empty_selection_vs_all Granularity.year 2020 2024 [] [] [] [rawAcme, rawBogus]).2.1
      (by decide)⟩

/-- C3 counterexample: with a record whose project type is missing, the
all-inclusive selection drops that record while the empty selection keeps
it, so toggling is NOT output-preserving on every dataset. -/
theorem c3_counterexample :
    filteredResult Granularity.year 2020 2024
        (fieldOptions (fun r => r.projectType) (loadDf c3raw)) [] [] c3raw
      ≠ filteredResult Granularity.year 2020 2024 [] [] [] c3raw := by decide

/-- C4 (amended).  The sum of all Grand Totals equals the quantity sum over
the filtered records THAT CARRY A BENEFICIARY (non-numeric quantities as
zero); records with a missing beneficiary are dropped by `pivot_table` and
contribute nothing — the claim's "over all filtered records" fails on them. -/
theorem c4_grand_total_conservation (l : List PRecord) (hne : l ≠ []) :
    sumGrandTotals (buildPivot l)
      = ((l.filter (fun p => p.record.beneficiary.isSome)).map (fun p => qty0 p.record)).sum := by
  have h : ∀ x ∈ pvRecords l, x.record.beneficiary.isSome := by
    intro x hx
    exact (List.mem_filter.mp hx).2
  exact sumGrandTotals_pivotCore (pvRecords l) h

/-- C4 witness: conservation on a one-record filtered set. -/
theorem c4_witness :
    wAcme ≠ [] ∧
    sumGrandTotals (buildPivot wAcme)
      = ((wAcme.filter (fun p => p.record.beneficiary.isSome)).map
          (fun p => qty0 p.record)).sum :=
  ⟨by decide, c4_grand_total_conservation wAcme (by decide)⟩

/-- C4 counterexample: one filtered record with a missing beneficiary and
quantity 10 — the pivot's Grand Totals sum to 0, the quantity sum over all
filtered records is 10. -/
theorem c4_counterexample :
    filteredResult Granularity.year 2020 2024 [] [] [] [rawNoBen] = Except.ok wNoBen ∧
    wNoBen ≠ [] ∧
    sumGrandTotals (buildPivot wNoBen) ≠ (wNoBen.map (fun p => qty0 p.record)).sum := by
  refine ⟨by decide, by decide, by decide⟩

/-- C6.  For a year range `[lo, hi]` with `lo ≤ hi`, every record surviving
the filters has a present comparable year inside the range; in particular no
record with a NaN `Retirement Year` gets through (NaN comparisons are
false). -/
theorem c6_year_range_sound (lo hi : Int) (hlohi : lo ≤ hi) (sPT sM sC : List String)
    (rs : List PRecord) (p : PRecord) (hp : p ∈ applyFilters lo hi sPT sM sC rs) :
    ∃ y, p.record.retirementYear = some y ∧ lo ≤ y ∧ y ≤ hi := by
  have h1 : p ∈ rs.filter (fun q => yearInRange lo hi q.record) :=
    mem_of_mem_catFilter (mem_of_mem_catFilter (mem_of_mem_catFilter hp))
  have h2 := (List.mem_filter.mp h1).2
  unfold yearInRange at h2
  cases hy : p.record.retirementYear with
  | none => rw [hy] at h2; simp at h2
  | some y =>
    rw [hy] at h2
    simp only [Bool.and_eq_true, decide_eq_true_eq] at h2
    exact ⟨y, rfl, h2.1, h2.2⟩

/-- C6 witness: the surviving Acme record's year 2021 lies in [2020, 2024]. -/
theorem c6_witness :
    (2020 : Int) ≤ 2024 ∧
    ∃ y, (⟨⟨some "Acme", some (2021, 5), some 2021, some 10,
        some "Forestry", some "M1", some "US"⟩, "2021"⟩ : PRecord).record.retirementYear
          = some y ∧ 2020 ≤ y ∧ y ≤ 2024 :=
  ⟨by decide, c6_year_range_sound 2020 2024 (by decide) [] [] [] wAcme _ (by decide)⟩

/-- C7.  Every final pivot row's `Grand Total` equals the sum of that row's
period-column cells, exactly (line 109 computes it as the row-wise sum
before the column is appended, and integer sums are exact). -/
theorem c7_grand_total_is_row_sum (l : List PRecord) (row : PivotRow)
    (h : row ∈ (buildPivot l).rows) : row.grandTotal = row.cells.sum := by
  rcases mem_rows_pivotCore (show row ∈ (pivotCore (pvRecords l)).rows from h) with ⟨b, _, hr⟩
  rw [hr]
  rfl

/-- C7 witness: the Acme row of a concrete pivot. -/
theorem c7_witness :
    (⟨"Acme", [10], 10⟩ : PivotRow) ∈ (buildPivot wAcme).rows ∧
    (⟨"Acme", [10], 10⟩ : PivotRow).grandTotal = (⟨"Acme", [10], 10⟩ : PivotRow).cells.sum :=
  ⟨by decide, c7_grand_total_is_row_sum wAcme ⟨"Acme", [10], 10⟩ (by decide)⟩

/-- C8.  On the same dataset and filters, switching the granularity from
Year to Month preserves every beneficiary's Grand Total: re-bucketing the
same filtered records into finer period columns neither loses nor
duplicates quantity.  (The hypothesis is the `astype(int)` success
condition, without which the Year run never produces a pivot.) -/
theorem c8_year_month_same_totals (lo hi : Int) (sPT sM sC : List String)
    (raw : List RawRecord)
    (h : ((loadDf raw).all (fun r => r.pdate.isSome)) = true) (b : String) :
    (pivotResult Granularity.year lo hi sPT sM sC raw).map (fun pv => rowTotal pv b)
      = (pivotResult Granularity.month lo hi sPT sM sC raw).map (fun pv => rowTotal pv b) := by
  unfold pivotResult filteredResult
  simp only [addPeriods]
  rw [if_pos h]
  simp only [Except.map]
  rw [applyFilters_map_pairWith, applyFilters_map_pairWith,
    rowTotal_buildPivot_map, rowTotal_buildPivot_map]

/-- C8 witness: Acme's Grand Total agrees between the Year and Month runs on
a concrete two-record dataset. -/
theorem c8_witness :
    ((loadDf [rawAcme, rawBogus]).all (fun r => r.pdate.isSome)) = true ∧
    (pivotResult Granularity.year 2020 2024 [] [] [] [rawAcme, rawBogus]).map
        (fun pv => rowTotal pv "Acme")
      = (pivotResult Granularity.month 2020 2024 [] [] [] [rawAcme, rawBogus]).map
          (fun pv => rowTotal pv "Acme") :=
  ⟨by decide, c8_year_month_same_totals 2020 2024 [] [] [] [rawAcme, rawBogus] (by decide) "Acme"⟩

/-- C9.  The Top-N selector returns exactly the first 5 rows of the sorted
pivot (all rows when fewer exist), does not re-sort anything, and its chart
columns are the pivot's period columns in order (i.e. the matrix columns
minus the `Grand Total` column), so each trace's values are exactly that
row's cells.  The hypothesis rules out a period literally labelled
"Grand Total", which no date-derived label is. -/
theorem c9_top_five_selector (l : List PRecord)
    (hGT : "Grand Total" ∉ (buildPivot l).periods) :
    topFive (buildPivot l) = (buildPivot l).rows.take 5 ∧
    (topFive (buildPivot l)).length = min 5 (buildPivot l).rows.length ∧
    periodColumnsOf (buildPivot l) = (buildPivot l).periods ∧
    chartTraces (buildPivot l)
      = ((buildPivot l).rows.take 5).map (fun r => (r.beneficiary, r.cells)) := by
  have hpc : periodColumnsOf (buildPivot l) = (buildPivot l).periods := by
    unfold periodColumnsOf pivotColumns
    rw [List.filter_append]
    have h1 : (buildPivot l).periods.filter (fun c => c != "Grand Total")
        = (buildPivot l).periods := by
      apply List.filter_eq_self.mpr
      intro c hc
      rw [bne_iff_ne]
      intro hcontra
      exact hGT (hcontra ▸ hc)
    have h2 : (["Grand Total"].filter (fun c => c != "Grand Total")) = [] := by decide
    rw [h1, h2, List.append_nil]
  refine ⟨rfl, List.length_take 5 _, hpc, ?_⟩
  unfold chartTraces topFive
  apply List.map_congr_left
  intro row hrow
  have hrow2 : row ∈ (buildPivot l).rows := List.mem_of_mem_take hrow
  rw [hpc]
  have hcells : (buildPivot l).periods.map (lookupCol (buildPivot l) row) = row.cells :=
    map_lookupCol_eq_cells (show row ∈ (pivotCore (pvRecords l)).rows from hrow2) hGT
  rw [hcells]

/-- C9 witness: the two-beneficiary pivot's chart traces are its first rows'
cells in period-column order. -/
theorem c9_witness :
    "Grand Total" ∉ (buildPivot wTie).periods ∧
    chartTraces (buildPivot wTie)
      = ((buildPivot wTie).rows.take 5).map (fun r => (r.beneficiary, r.cells)) :=
  ⟨by decide, (c9_top_five_selector wTie (by decide)).2.2.2⟩

/-- C10.  Records with a missing beneficiary are silently dropped by the
aggregation: the pivot built from the filtered set is identical to the one
built after discarding every such record, hence their quantities appear in
no cell, in no Grand Total, and in none of the summary metrics (beneficiary
count, total credits, period count). -/
theorem c10_missing_beneficiary_invisible (l : List PRecord) :
    buildPivot (l.filter (fun p => p.record.beneficiary.isSome)) = buildPivot l ∧
    sumGrandTotals (buildPivot (l.filter (fun p => p.record.beneficiary.isSome)))
      = sumGrandTotals (buildPivot l) ∧
    (buildPivot (l.filter (fun p => p.record.beneficiary.isSome))).rows.length
      = (buildPivot l).rows.length ∧
    (periodColumnsOf (buildPivot (l.filter (fun p => p.record.beneficiary.isSome)))).length
      = (periodColumnsOf (buildPivot l)).length := by
  have h : buildPivot (l.filter (fun p => p.record.beneficiary.isSome)) = buildPivot l := by
    unfold buildPivot
    rw [pvRecords_filter]
  exact ⟨h, by rw [h], by rw [h], by rw [h]⟩

end Offtakers
